import Mathlib

/-!
Shallow embedding of the ORSAC monitoring backend (`monitor_backend.py`).

The per-site check pipeline `check_site` is embedded as a pure function from
the site configuration plus an explicit environment of network-probe outcomes
(DNS, ICMP ping, HTTP, TLS, WHOIS) to the emitted result record and the list
of alert (subject, body) pairs handed to the mail dispatcher.  Each probe
block is a separate definition mirroring the corresponding block of the
Python function; machine timing values are rationals, Python `round(x, 2)`
is modelled by round-half-to-even, and the string-or-number record fields are
modelled by the `FVal` sum.
-/

namespace Orsac

/-- A record field that Python stores either as a number or as a sentinel
string such as "Failed", "N/A", "Error" or "WHOIS Failed". -/
inductive FVal where
  | num (q : ℚ)
  | str (s : String)
deriving DecidableEq

/-- Round-half-to-even of a rational to an integer, as Python `round` does. -/
def roundHalfEven (x : ℚ) : ℤ :=
  let f := ⌊x⌋
  let frac := x - (f : ℚ)
  if frac < 1 / 2 then f
  else if 1 / 2 < frac then f + 1
  else if f % 2 = 0 then f else f + 1

/-- Python `round(x, 2)`. -/
def pyRound2 (x : ℚ) : ℚ := (roundHalfEven (x * 100) : ℚ) / 100

/-- Whitespace predicate used by Python `str.strip()` (only plain spaces ever
occur in the notes accumulator). -/
def isWs (c : Char) : Bool := c.isWhitespace

/-- Python `str.strip()`: drop whitespace from both ends. -/
def pyStrip (s : String) : String :=
  ⟨((s.data.dropWhile isWs).reverse.dropWhile isWs).reverse⟩

/-- Python substring containment `sub in s`. -/
def strContains (s sub : String) : Prop := sub.data <:+: s.data

instance (s sub : String) : Decidable (strContains s sub) :=
  List.decidableInfix sub.data s.data

/-- Python `str.startswith`. -/
def pyStartsWith (s p : String) : Bool := p.data.isPrefixOf s.data

/-- Python truthiness of an optional string (`None` and `""` are falsy). -/
def optStrTruthy : Option String → Bool
  | none => false
  | some s => !s.isEmpty

/-- Global settings consumed by `check_site` (lines 75-78 of the source). -/
structure Settings where
  default_timeout : ℤ
  use_icmp_by_default : Bool
  response_time_threshold : ℚ

/-- Per-site configuration; `none` models an absent YAML key so that the
`site.get(key, default)` defaulting of the source is explicit. -/
structure SiteConfig where
  name : String
  url : String
  enabled : Option Bool
  timeout : Option ℤ
  use_icmp : Option Bool
  expected_status : Option ℤ
  keyword : Option String
  check_keyword : Option Bool

/-- Outcome of the DNS A-record resolution (lines 193-203): elapsed seconds
and the first answer's textual address, or an exception. -/
inductive DNSOutcome where
  | ok (elapsedSec : ℚ) (ip : String)
  | exn
deriving DecidableEq

/-- Outcome of `icmplib.ping` (lines 207-215): a reply object carrying the
`is_alive` flag and optional average round-trip time, or a raised
exception. -/
inductive PingOutcome where
  | ok (isAlive : Bool) (avgRtt : Option ℚ)
  | exn
deriving DecidableEq

/-- Outcome of `requests.get` (lines 220-254): elapsed seconds, redirect
history length, body size in bytes, status code and body text (with a flag
for the body-decoding access raising), or a transport exception carrying its
message. -/
inductive HTTPOutcome where
  | ok (elapsedSec : ℚ) (historyLen : ℕ) (contentBytes : ℕ)
      (statusCode : ℤ) (text : String) (textRaises : Bool)
  | exn (msg : String)
deriving DecidableEq

/-- Outcome of the TLS certificate fetch (lines 257-271): the parsed expiry
instant rendered in ISO form together with the computed days left, or any
failure. -/
inductive SSLOutcome where
  | ok (expiryIso : String) (daysLeft : ℤ)
  | exn
deriving DecidableEq

/-- A parsed `datetime` as the WHOIS code observes it: its ISO rendering
after UTC normalisation and the integer `(exp - now).days`. -/
structure PyDatetime where
  iso : String
  daysFromNow : ℤ
deriving DecidableEq

/-- Shape of the `expiration_date` attribute of a WHOIS record: absent (or a
non-datetime scalar), a single datetime, or a list whose entries are either
datetimes or junk (`none` models both `None` entries and non-datetime
entries, which line 109 filters out identically). -/
inductive WhoisExp where
  | scalarNone
  | scalarDate (d : PyDatetime)
  | dates (ds : List (Option PyDatetime))
deriving DecidableEq

/-- Availability and outcome of the WHOIS lookup (lines 35-40 and 101-123):
the library may be missing entirely, return a record, or raise. -/
inductive WhoisOutcome where
  | unavailable
  | ok (e : WhoisExp)
  | exn
deriving DecidableEq

/-- The environment of one site check: the clock readings and the outcome of
each network interaction, which the embedded `check_site` consumes in the
order the source performs them. -/
structure Env where
  nowUtcIso : String
  nowLocalStr : String
  dns : DNSOutcome
  ping : PingOutcome
  http : HTTPOutcome
  ssl : SSLOutcome
  whois : WhoisOutcome

/-- The emitted record, one field per key of the `results` dict
(lines 172-188). -/
structure CheckResult where
  dateTime : String
  websiteName : String
  url : String
  status : String
  ping : FVal
  httpTime : FVal
  dnsTime : FVal
  contentSize : FVal
  redirects : ℕ
  keywordCheck : String
  sslDaysLeft : FVal
  sslExpiryDate : String
  domainDaysLeft : FVal
  domainExpiryDate : String
  notes : String
deriving DecidableEq

/-- An alert is the (subject, body) pair handed to `send_email`. -/
abbrev Alert := String × String

/-- Embeds `get_domain_expiry` (lines 101-123): `(None, "N/A")` when the
library is unavailable, `(None, "WHOIS Failed")` when the lookup raises,
otherwise the first valid datetime of the expiration field (scalar or list)
with its integer days left, or `(None, "N/A")` when no usable date exists. -/
def get_domain_expiry (w : WhoisOutcome) : Option PyDatetime × FVal :=
  match w with
  | .unavailable => (none, FVal.str "N/A")
  | .exn => (none, FVal.str "WHOIS Failed")
  | .ok e =>
    let exp : Option PyDatetime :=
      match e with
      | .scalarNone => none
      | .scalarDate d => some d
      | .dates ds =>
        match ds.filterMap id with
        | [] => none
        | d :: _ => some d
    match exp with
    | some d => (some d, FVal.num (d.daysFromNow : ℚ))
    | none => (none, FVal.str "N/A")

/-- DNS block (lines 193-203): returns the "DNS Time (ms)" field, the
resolved `ip_addr` and the accumulated note. -/
def dnsBlock : DNSOutcome → FVal × Option String × String
  | .ok e ip => (FVal.num (pyRound2 (e * 1000)), some ip, "")
  | .exn => (FVal.str "Failed", none, "DNS lookup failed. ")

/-- ICMP block (lines 205-217): returns the "Ping (ms)" field and the
accumulated note.  The ping outcome is only consulted when `use_icmp` holds
and the resolved address is truthy, exactly as the source's
`if use_icmp and ip_addr:`. -/
def pingBlock (use_icmp : Bool) (ip_addr : Option String) (p : PingOutcome) :
    FVal × String :=
  if use_icmp && optStrTruthy ip_addr then
    match p with
    | .ok alive (some rtt) =>
      if alive then (FVal.num (pyRound2 rtt), "") else (FVal.str "Failed", "")
    | .ok _ none => (FVal.str "Failed", "")
    | .exn => (FVal.str "Error", "ICMP ping failed. ")
  else (FVal.str "N/A", "")

/-- Subject of both alert emails (lines 233 and 252). -/
def subjectDown (name : String) : String :=
  "Alert: Website \x27" ++ name ++ "\x27 is Down"

/-- Alert body for a status-code mismatch (line 234). -/
def bodyWrongStatus (name url : String) (code : ℤ) (nowLocal : String) : String :=
  "The website \x27" ++ name ++ "\x27 (" ++ url ++ ") returned a status code of "
    ++ toString code ++ " at " ++ nowLocal ++ ". "

/-- Alert body for a transport failure (line 253). -/
def bodyHttpError (name url msg nowLocal : String) : String :=
  "The website \x27" ++ name ++ "\x27 (" ++ url ++ ") could not be reached at "
    ++ nowLocal ++ " due to an HTTP error: " ++ msg

/-- Values produced by the HTTP try/except block (lines 220-254); on the
exception path every field other than Status, the note and the alert keeps
its initialised value from lines 176-188. -/
structure HttpRes where
  httpTime : FVal
  redirects : ℕ
  contentSize : FVal
  status : String
  keywordCheck : String
  note : String
  alerts : List Alert

/-- HTTP block (lines 220-254): timing, redirect count, content size, the
Up/Down status derivation with its alert, and the optional keyword check. -/
def httpBlock (expected_status : ℤ) (check_keyword_flag : Bool)
    (keyword : Option String) (name url nowLocal : String) :
    HTTPOutcome → HttpRes
  | .ok e hl cb code text textRaises =>
    let httpTime := FVal.num (pyRound2 (e * 1000))
    let contentSize := FVal.num (pyRound2 ((cb : ℚ) / 1024))
    let sna : String × String × List Alert :=
      if code = expected_status then ("Up", "", [])
      else ("Down (" ++ toString code ++ ")",
            "Expected status " ++ toString expected_status ++ ", but got "
              ++ toString code ++ ". ",
            [(subjectDown name, bodyWrongStatus name url code nowLocal)])
    let kn : String × String :=
      if check_keyword_flag && optStrTruthy keyword then
        if textRaises then ("Error", "")
        else
          let kw := keyword.getD ""
          if strContains text.toLower kw.toLower then ("Pass", "")
          else ("Fail", "Keyword \x27" ++ kw ++ "\x27 not found in content. ")
      else ("Skipped", "")
    ⟨httpTime, hl, contentSize, sna.1, kn.1, sna.2.1 ++ kn.2, sna.2.2⟩
  | .exn msg =>
    ⟨FVal.str "Failed", 0, FVal.str "Failed", "Down (HTTP Error)", "Skipped",
      "HTTP request failed. ",
      [(subjectDown name, bodyHttpError name url msg nowLocal)]⟩

/-- TLS block (lines 256-271): returns the "SSL Days Left" field, the
"SSL Expiry Date" field and the accumulated note. -/
def sslBlock : SSLOutcome → FVal × String × String
  | .ok iso d => (FVal.num (d : ℚ), iso, "")
  | .exn => (FVal.str "Failed", "N/A", "SSL check failed. ")

/-- Slow-escalation block (lines 281-288): only a genuinely numeric
"HTTP Time (ms)" above the threshold upgrades a Status beginning with
"Up". -/
def slowMark (threshold : ℚ) (status : String) (httpTime : FVal) : String :=
  match httpTime with
  | FVal.num q =>
    if threshold < q then
      if pyStartsWith status "Up" then "Up (Slow)" else status
    else status
  | FVal.str _ => status

/-- Body of `check_site` for an enabled site (lines 165-292): resolves the
per-site defaults, runs the five probe blocks in source order, appends the
domain-failure note, applies the slow escalation and strips the notes. -/
def checkBody (st : Settings) (site : SiteConfig) (env : Env) :
    CheckResult × List Alert :=
  let use_icmp := site.use_icmp.getD st.use_icmp_by_default
  let expected_status := site.expected_status.getD 200
  let check_keyword_flag := site.check_keyword.getD (optStrTruthy site.keyword)
  let dnsRes := dnsBlock env.dns
  let pingRes := pingBlock use_icmp dnsRes.2.1 env.ping
  let h := httpBlock expected_status check_keyword_flag site.keyword
    site.name site.url env.nowLocalStr env.http
  let sslRes := sslBlock env.ssl
  let dom := get_domain_expiry env.whois
  let domainDate : String :=
    match dom.1 with
    | some d => d.iso
    | none => "N/A"
  let noteDom : String :=
    if dom.2 = FVal.str "N/A" ∨ dom.2 = FVal.str "WHOIS Failed" then
      match dom.2 with
      | FVal.str s => "Domain check failed: " ++ s ++ ". "
      | FVal.num _ => ""
    else ""
  let status := slowMark st.response_time_threshold h.status h.httpTime
  let notes := pyStrip (dnsRes.2.2 ++ pingRes.2 ++ h.note ++ sslRes.2.2 ++ noteDom)
  ({ dateTime := env.nowUtcIso
     websiteName := site.name
     url := site.url
     status := status
     ping := pingRes.1
     httpTime := h.httpTime
     dnsTime := dnsRes.1
     contentSize := h.contentSize
     redirects := h.redirects
     keywordCheck := h.keywordCheck
     sslDaysLeft := sslRes.1
     sslExpiryDate := sslRes.2.1
     domainDaysLeft := dom.2
     domainExpiryDate := domainDate
     notes := notes }, h.alerts)

/-- Embeds `check_site` (lines 155-292): a disabled site returns `None`
before any probe runs; an enabled site returns the composed record together
with the alerts emitted along the way. -/
def check_site (st : Settings) (site : SiteConfig) (env : Env) :
    Option (CheckResult × List Alert) :=
  if site.enabled.getD true then some (checkBody st site env) else none

/-- Embeds the row collection of `run_checks_and_log` (lines 296-303): each
site is checked with its own probe environment and `None` results (disabled
sites) are dropped. -/
def runChecks (st : Settings) (sitesEnv : List (SiteConfig × Env)) :
    List (CheckResult × List Alert) :=
  sitesEnv.filterMap fun p => check_site st p.1 p.2

/-- Concrete settings used in the evaluation examples. -/
def stW : Settings := ⟨10, true, 3000⟩

/-- Concrete enabled site with a configured keyword. -/
def siteW : SiteConfig :=
  ⟨"Example", "https://example.com", some true, none, some true, some 200,
    some "odisha", some true⟩

/-- Concrete parsed WHOIS expiry date. -/
def dW : PyDatetime := ⟨"2026-05-01T00:00:00+00:00", 200⟩

/-- Environment of a fully successful check round. -/
def envOk : Env :=
  ⟨"2025-01-01T00:00:00+00:00", "2025-01-01 05:30:00",
    DNSOutcome.ok (1 / 100) "93.184.216.34",
    PingOutcome.ok true (some 12),
    HTTPOutcome.ok (1 / 20) 0 2048 200 "welcome to odisha portal" false,
    SSLOutcome.ok "2026-01-01T00:00:00+00:00" 80,
    WhoisOutcome.ok (WhoisExp.scalarDate dW)⟩

/-- Record and alerts of the fully successful check. -/
def pairOk : CheckResult × List Alert := checkBody stW siteW envOk

/-- Environment where the server answers 503 instead of 200. -/
def envBad : Env :=
  { envOk with http := HTTPOutcome.ok (1 / 20) 0 2048 503 "oops" false }

/-- Record and alerts of the mismatching-status check. -/
def pairBad : CheckResult × List Alert := checkBody stW siteW envBad

/-- Environment where the HTTP transport raises. -/
def envFail : Env := { envOk with http := HTTPOutcome.exn "connection refused" }

/-- Record and alerts of the transport-failure check. -/
def pairFail : CheckResult × List Alert := checkBody stW siteW envFail

/-- Environment where every probe fails and WHOIS is unavailable. -/
def envAllFail : Env :=
  ⟨"2025-01-01T00:00:00+00:00", "2025-01-01 05:30:00", DNSOutcome.exn,
    PingOutcome.exn, HTTPOutcome.exn "conn", SSLOutcome.exn,
    WhoisOutcome.unavailable⟩

/-- Record and alerts of the everything-fails check. -/
def pairAllFail : CheckResult × List Alert := checkBody stW siteW envAllFail

/-- Disabled variant of the concrete site. -/
def siteOff : SiteConfig := { siteW with enabled := some false }

/-- Dropping a matching run from the front of `a ++ (t ++ b)` cannot eat into
`t` when `t` starts with a non-matching character. -/
lemma dropWhile_keeps_tail {p : Char → Bool} {t : List Char} {c : Char}
    {t2 : List Char} (b : List Char) (ht : t = c :: t2) (hc : p c = false) :
    ∀ a : List Char, ∃ a2, List.dropWhile p (a ++ (t ++ b)) = a2 ++ (t ++ b) := by
  intro a
  induction a with
  | nil =>
    refine ⟨[], ?_⟩
    subst ht
    simp [List.dropWhile_cons, hc]
  | cons x xs ih =>
    obtain ⟨a2, ha2⟩ := ih
    by_cases hx : p x
    · exact ⟨a2, by simp [List.dropWhile_cons, hx, ha2]⟩
    · exact ⟨x :: xs, by simp [List.dropWhile_cons, hx]⟩

/-- A substring whose first and last characters are not whitespace survives
the two-sided whitespace trim. -/
lemma infix_stripList {t l : List Char} (h : t <:+: l)
    (hh : ∃ c, t.head? = some c ∧ isWs c = false)
    (hl : ∃ c, t.reverse.head? = some c ∧ isWs c = false) :
    t <:+: ((l.dropWhile isWs).reverse.dropWhile isWs).reverse := by
  obtain ⟨a, b, rfl⟩ := h
  obtain ⟨c, hc1, hc2⟩ := hh
  obtain ⟨c2, hd1, hd2⟩ := hl
  obtain ⟨t2, ht⟩ := List.head?_eq_some_iff.mp hc1
  obtain ⟨t3, ht3⟩ := List.head?_eq_some_iff.mp hd1
  rw [List.append_assoc]
  obtain ⟨a2, ha2⟩ := dropWhile_keeps_tail b ht hc2 a
  rw [ha2]
  have hrev : (a2 ++ (t ++ b)).reverse = b.reverse ++ (t.reverse ++ a2.reverse) := by
    simp [List.reverse_append, List.append_assoc]
  rw [hrev]
  obtain ⟨b2, hb2⟩ := dropWhile_keeps_tail a2.reverse ht3 hd2 b.reverse
  rw [hb2]
  refine ⟨a2, b2.reverse, ?_⟩
  simp [List.reverse_append, List.reverse_reverse, List.append_assoc]

/-- String-level version: a substring of the raw notes accumulator whose end
characters are not whitespace is still contained after `pyStrip`. -/
lemma strContains_pyStrip {s sub : String} (h : sub.data <:+: s.data)
    (hh : ∃ c, sub.data.head? = some c ∧ isWs c = false)
    (hl : ∃ c, sub.data.reverse.head? = some c ∧ isWs c = false) :
    strContains (pyStrip s) sub :=
  infix_stripList h hh hl

/-- Python `round(x, 2)` of a non-negative value is non-negative. -/
lemma pyRound2_nonneg {x : ℚ} (hx : 0 ≤ x) : 0 ≤ pyRound2 x := by
  have h100 : (0 : ℚ) ≤ x * 100 := by positivity
  have hf : (0 : ℤ) ≤ ⌊x * 100⌋ := Int.floor_nonneg.mpr h100
  have hfq : (0 : ℚ) ≤ (⌊x * 100⌋ : ℚ) := by exact_mod_cast hf
  simp only [pyRound2, roundHalfEven]
  split_ifs
  all_goals refine div_nonneg ?_ (by norm_num)
  all_goals push_cast
  all_goals linarith

/-- A "Down (...)" status string never begins with "Up". -/
lemma pyStartsWith_down_eq_false (t : String) :
    pyStartsWith ("Down (" ++ t) "Up" = false := rfl

/-- A "Down (...)" status string is never "Up (Slow)". -/
lemma down_ne_upSlow (t : String) : "Down (" ++ t ≠ "Up (Slow)" := by
  intro h
  have h2 := congrArg (fun s : String => s.data.head?) h
  have h3 : (some 'D' : Option Char) = some 'U' := h2
  exact absurd h3 (by decide)

/-- "Up" begins with "Up". -/
lemma pyStartsWith_up_up : pyStartsWith "Up" "Up" = true := rfl

/-- Inverting a successful `check_site`: the site was enabled and the result
is the composed body. -/
lemma check_site_eq_some {st : Settings} {site : SiteConfig} {env : Env}
    {r : CheckResult} {al : List Alert}
    (hr : check_site st site env = some (r, al)) :
    site.enabled.getD true = true ∧ r = (checkBody st site env).1
      ∧ al = (checkBody st site env).2 := by
  by_cases h : site.enabled.getD true
  · rw [check_site, if_pos h] at hr
    have h2 := Option.some.inj hr
    exact ⟨h, by rw [h2], by rw [h2]⟩
  · rw [check_site, if_neg h] at hr
    cases hr

/-- A middle piece of the five-way notes concatenation is an infix of the
whole accumulator. -/
lemma infix_notes_middle (A B P C D : String) :
    P.data <:+: (A ++ B ++ P ++ C ++ D).data := by
  refine ⟨A.data ++ B.data, C.data ++ D.data, ?_⟩
  simp [List.append_assoc]

/-- C9: when the HTTP request raises a transport exception, the emitted
"Keyword Check" field is exactly "Skipped", whatever keyword configuration
the site has — the keyword search only runs after a successful response. -/
theorem keyword_skipped_on_http_error (st : Settings) (site : SiteConfig)
    (env : Env) (r : CheckResult) (al : List Alert) (msg : String)
    (hr : check_site st site env = some (r, al))
    (hh : env.http = HTTPOutcome.exn msg) :
    r.keywordCheck = "Skipped" := by
  obtain ⟨hen, hrr, hal⟩ := check_site_eq_some hr
  subst hrr
  simp [checkBody, httpBlock, hh]

/-- C10: when the HTTP request fails, the "Redirects" field of the record is
the integer 0, the same value a successful response with an empty redirect
history produces — no sentinel string distinguishes the failure. -/
theorem redirects_zero_on_http_error (st : Settings) (site : SiteConfig)
    (env : Env) (r : CheckResult) (al : List Alert) (msg : String)
    (hr : check_site st site env = some (r, al))
    (hh : env.http = HTTPOutcome.exn msg) :
    r.redirects = 0
    ∧ ∀ expected flag kw nm u now e cb code text tex,
        (httpBlock expected flag kw nm u now
          (HTTPOutcome.ok e 0 cb code text tex)).redirects = 0 := by
  obtain ⟨hen, hrr, hal⟩ := check_site_eq_some hr
  subst hrr
  constructor
  · simp [checkBody, httpBlock, hh]
  · intro expected flag kw nm u now e cb code text tex
    simp [httpBlock]

/-- C6: when the HTTP request fails with a transport exception, the record
has Status "Down (HTTP Error)", "HTTP Time (ms)" stays "Failed", the Notes
contain "HTTP request failed." and exactly one alert (subject, body) pair is
emitted. -/
theorem http_error_record_spec (st : Settings) (site : SiteConfig) (env : Env)
    (r : CheckResult) (al : List Alert) (msg : String)
    (hr : check_site st site env = some (r, al))
    (hh : env.http = HTTPOutcome.exn msg) :
    r.status = "Down (HTTP Error)" ∧ r.httpTime = FVal.str "Failed"
    ∧ strContains r.notes "HTTP request failed."
    ∧ al = [(subjectDown site.name,
        bodyHttpError site.name site.url msg env.nowLocalStr)] := by
  obtain ⟨hen, hrr, hal⟩ := check_site_eq_some hr
  subst hrr; subst hal
  refine ⟨?_, ?_, ?_, ?_⟩
  · simp [checkBody, httpBlock, hh, slowMark]
  · simp [checkBody, httpBlock, hh]
  · simp only [checkBody]
    rw [hh]
    simp only [httpBlock]
    refine strContains_pyStrip ?_ ⟨'H', rfl, by decide⟩ ⟨'.', rfl, by decide⟩
    exact List.IsInfix.trans (by decide) (infix_notes_middle _ _ _ _ _)
  · simp [checkBody, httpBlock, hh]

/-- C1: the "HTTP Time (ms)" field is either the measured elapsed time in
milliseconds rounded to two decimals (a non-negative number, given that the
measured elapsed time is non-negative) or exactly the string "Failed"; a
failed request never leaves a number there. -/
theorem http_time_field_spec (st : Settings) (site : SiteConfig) (env : Env)
    (r : CheckResult) (al : List Alert)
    (hr : check_site st site env = some (r, al))
    (hnn : ∀ e hl cb code text tex,
      env.http = HTTPOutcome.ok e hl cb code text tex → 0 ≤ e) :
    (∃ e hl cb code text tex, env.http = HTTPOutcome.ok e hl cb code text tex
        ∧ r.httpTime = FVal.num (pyRound2 (e * 1000)) ∧ 0 ≤ pyRound2 (e * 1000))
    ∨ (∃ msg, env.http = HTTPOutcome.exn msg ∧ r.httpTime = FVal.str "Failed") := by
  obtain ⟨hen, hrr, hal⟩ := check_site_eq_some hr
  subst hrr
  cases hhttp : env.http with
  | ok e hl cb code text tex =>
    left
    have he : 0 ≤ e := hnn e hl cb code text tex hhttp
    exact ⟨e, hl, cb, code, text, tex, rfl,
      by simp [checkBody, httpBlock, hhttp],
      pyRound2_nonneg (by linarith)⟩
  | exn msg =>
    right
    exact ⟨msg, rfl, by simp [checkBody, httpBlock, hhttp]⟩

/-- The message without its trailing space is contained in the message with
it. -/
lemma infix_dot_space (pre : String) :
    (pre ++ ".").data <:+: (pre ++ ". ").data := by
  refine ⟨[], [' '], ?_⟩
  rw [String.data_append, String.data_append]
  rw [show (". " : String).data = ['.', ' '] from rfl,
    show ("." : String).data = ['.'] from rfl]
  simp [List.append_assoc]

/-- A string ending in "." ends in a non-whitespace character. -/
lemma revHead_dot (pre : String) :
    ∃ c, (pre ++ ".").data.reverse.head? = some c ∧ isWs c = false := by
  refine ⟨'.', ?_, by decide⟩
  rw [String.data_append, List.reverse_append]
  rfl

/-- C2: the final Status is "Up (Slow)" exactly when the status the HTTP
probe derived begins with "Up", the "HTTP Time (ms)" field is a genuine
number, and that number exceeds the configured slow-response threshold. -/
theorem up_slow_iff_spec (st : Settings) (site : SiteConfig) (env : Env)
    (r : CheckResult) (al : List Alert)
    (hr : check_site st site env = some (r, al)) :
    r.status = "Up (Slow)" ↔
      (pyStartsWith (httpBlock (site.expected_status.getD 200)
          (site.check_keyword.getD (optStrTruthy site.keyword)) site.keyword
          site.name site.url env.nowLocalStr env.http).status "Up" = true
        ∧ ∃ q : ℚ, r.httpTime = FVal.num q ∧ st.response_time_threshold < q) := by
  obtain ⟨hen, hrr, hal⟩ := check_site_eq_some hr
  subst hrr
  cases hhttp : env.http with
  | exn msg =>
    simp [checkBody, httpBlock, hhttp, slowMark]
  | ok e hl cb code text tex =>
    by_cases hcode : code = site.expected_status.getD 200
    · simp only [checkBody, httpBlock, hhttp]
      simp [hcode, slowMark, pyStartsWith_up_up, FVal.num.injEq]
    · simp [checkBody, httpBlock, hhttp, hcode, slowMark, String.append_assoc,
        pyStartsWith_down_eq_false, down_ne_upSlow]

/-- Containment is preserved by appending on the left. -/
lemma strContains_appendLeft {s sub : String} (m : String)
    (h : strContains s sub) : strContains (m ++ s) sub := by
  obtain ⟨a, b, hab⟩ := h
  exact ⟨m.data ++ a, b, by rw [String.data_append, ← hab]; simp [List.append_assoc]⟩

/-- Containment is preserved by appending on the right. -/
lemma strContains_appendRight {s sub : String} (m : String)
    (h : strContains s sub) : strContains (s ++ m) sub := by
  obtain ⟨a, b, hab⟩ := h
  exact ⟨a, b ++ m.data, by rw [String.data_append, ← hab]; simp [List.append_assoc]⟩

/-- The note with a trailing space contains the message without it. -/
lemma strContains_dot_space (pre : String) :
    strContains (pre ++ ". ") (pre ++ ".") := infix_dot_space pre

/-- C5: on a successful HTTP GET the probe derives Status "Up" exactly on a
status-code match; on a mismatch the record carries
"Down (&lt;actual code&gt;)", the Notes contain the mismatch message, and one
alert (subject, body) pair is emitted. -/
theorem http_status_derivation_spec (st : Settings) (site : SiteConfig)
    (env : Env) (r : CheckResult) (al : List Alert)
    (e : ℚ) (hl cb : ℕ) (code : ℤ) (text : String) (tex : Bool)
    (hr : check_site st site env = some (r, al))
    (hh : env.http = HTTPOutcome.ok e hl cb code text tex) :
    (code = site.expected_status.getD 200 →
        (httpBlock (site.expected_status.getD 200)
            (site.check_keyword.getD (optStrTruthy site.keyword)) site.keyword
            site.name site.url env.nowLocalStr env.http).status = "Up"
        ∧ (r.status = "Up" ∨ r.status = "Up (Slow)") ∧ al = [])
    ∧ (code ≠ site.expected_status.getD 200 →
        r.status = "Down (" ++ toString code ++ ")"
        ∧ strContains r.notes
            ("Expected status " ++ toString (site.expected_status.getD 200)
              ++ ", but got " ++ toString code ++ ".")
        ∧ al = [(subjectDown site.name,
            bodyWrongStatus site.name site.url code env.nowLocalStr)]) := by
  obtain ⟨hen, hrr, hal⟩ := check_site_eq_some hr
  subst hrr; subst hal
  constructor
  · intro hcode
    refine ⟨by simp [httpBlock, hh, hcode], ?_, by simp [checkBody, httpBlock, hh, hcode]⟩
    by_cases hq : st.response_time_threshold < pyRound2 (e * 1000)
    · right
      simp [checkBody, httpBlock, hh, hcode, slowMark, pyStartsWith_up_up, hq]
    · left
      simp [checkBody, httpBlock, hh, hcode, slowMark, pyStartsWith_up_up, hq]
  · intro hcode
    refine ⟨?_, ?_, ?_⟩
    · simp [checkBody, httpBlock, hh, if_neg hcode, slowMark, String.append_assoc,
        pyStartsWith_down_eq_false]
    · simp only [checkBody, httpBlock, hh, if_neg hcode]
      refine strContains_pyStrip ?_ ⟨'E', rfl, by decide⟩ (revHead_dot _)
      exact strContains_appendRight _ (strContains_appendRight _
        (strContains_appendLeft _ (strContains_appendRight _
          (strContains_dot_space _))))
    · simp [checkBody, httpBlock, hh, if_neg hcode]

/-- C3 (amended): when ICMP is enabled but DNS resolved no IP, the ping is
never attempted and the emitted "Ping (ms)" field is the skip sentinel
"N/A". -/
theorem ping_na_when_no_ip (st : Settings) (site : SiteConfig) (env : Env)
    (r : CheckResult) (al : List Alert)
    (hr : check_site st site env = some (r, al))
    (hicmp : site.use_icmp.getD st.use_icmp_by_default = true)
    (hdns : env.dns = DNSOutcome.exn) :
    r.ping = FVal.str "N/A" := by
  obtain ⟨hen, hrr, hal⟩ := check_site_eq_some hr
  subst hrr
  simp [checkBody, dnsBlock, pingBlock, hdns, optStrTruthy]

/-- C3 counterexample: with ICMP enabled and a failed DNS resolution the
emitted "Ping (ms)" field is "N/A", not "Failed" as the claim states. -/
theorem ping_failed_counterexample :
    siteW.use_icmp = some true
    ∧ envAllFail.dns = DNSOutcome.exn
    ∧ check_site stW siteW envAllFail = some (pairAllFail.1, pairAllFail.2)
    ∧ pairAllFail.1.ping = FVal.str "N/A"
    ∧ ¬ pairAllFail.1.ping = FVal.str "Failed" := by
  refine ⟨rfl, rfl, rfl, rfl, ?_⟩
  intro h
  have h2 : (FVal.str "N/A" : FVal) = FVal.str "Failed" := h
  exact absurd h2 (by decide)

/-- C4: the "Ping (ms)" field takes exactly the three failure-distinct
outcomes: "N/A" whenever the probe is skipped (ICMP disabled or no truthy
IP); on an attempt, the rounded round-trip time when the reply is alive with
a non-null average, "Failed" otherwise; and "Error" with an
"ICMP ping failed." note when the ping transport raises. -/
theorem ping_field_trichotomy (st : Settings) (site : SiteConfig) (env : Env)
    (r : CheckResult) (al : List Alert)
    (hr : check_site st site env = some (r, al)) :
    ((site.use_icmp.getD st.use_icmp_by_default
        && optStrTruthy (dnsBlock env.dns).2.1) = false → r.ping = FVal.str "N/A")
    ∧ ((site.use_icmp.getD st.use_icmp_by_default
        && optStrTruthy (dnsBlock env.dns).2.1) = true →
        (∀ alive rtt, env.ping = PingOutcome.ok alive (some rtt) →
            r.ping = if alive then FVal.num (pyRound2 rtt) else FVal.str "Failed")
        ∧ (∀ alive, env.ping = PingOutcome.ok alive none → r.ping = FVal.str "Failed")
        ∧ (env.ping = PingOutcome.exn → r.ping = FVal.str "Error"
            ∧ strContains r.notes "ICMP ping failed.")) := by
  obtain ⟨hen, hrr, hal⟩ := check_site_eq_some hr
  subst hrr
  constructor
  · intro hc
    simp [checkBody, pingBlock, hc]
  · intro hc
    refine ⟨?_, ?_, ?_⟩
    · intro alive rtt hp
      cases alive <;> simp [checkBody, pingBlock, hc, hp]
    · intro alive hp
      simp [checkBody, pingBlock, hc, hp]
    · intro hp
      constructor
      · simp [checkBody, pingBlock, hc, hp]
      · simp only [checkBody, pingBlock, hc, hp, if_true]
        refine strContains_pyStrip ?_ ⟨'I', rfl, by decide⟩ ⟨'.', rfl, by decide⟩
        exact strContains_appendRight _ (strContains_appendRight _
          (strContains_appendRight _ (strContains_appendLeft _ (by decide))))

/-- C7: the domain-expiry probe has exactly three outcomes — the first valid
date with its integer days left (also through the record fields), "N/A" when
the lookup capability is unavailable or no usable date exists, and
"WHOIS Failed" when the lookup raises; with WHOIS unavailable every site's
"Domain Days Left" is "N/A". -/
theorem domain_expiry_trichotomy (st : Settings) (site : SiteConfig) (env : Env)
    (r : CheckResult) (al : List Alert)
    (hr : check_site st site env = some (r, al)) :
    (env.whois = WhoisOutcome.unavailable → r.domainDaysLeft = FVal.str "N/A")
    ∧ r.domainDaysLeft = (get_domain_expiry env.whois).2
    ∧ (∀ d, (get_domain_expiry env.whois).1 = some d →
        r.domainDaysLeft = FVal.num (d.daysFromNow : ℚ) ∧ r.domainExpiryDate = d.iso)
    ∧ get_domain_expiry WhoisOutcome.unavailable = (none, FVal.str "N/A")
    ∧ get_domain_expiry WhoisOutcome.exn = (none, FVal.str "WHOIS Failed")
    ∧ (∀ d, get_domain_expiry (WhoisOutcome.ok (WhoisExp.scalarDate d))
        = (some d, FVal.num (d.daysFromNow : ℚ)))
    ∧ get_domain_expiry (WhoisOutcome.ok WhoisExp.scalarNone) = (none, FVal.str "N/A")
    ∧ (∀ ds d, (ds.filterMap id).head? = some d →
        get_domain_expiry (WhoisOutcome.ok (WhoisExp.dates ds))
          = (some d, FVal.num (d.daysFromNow : ℚ)))
    ∧ (∀ ds, ds.filterMap id = [] →
        get_domain_expiry (WhoisOutcome.ok (WhoisExp.dates ds))
          = (none, FVal.str "N/A")) := by
  obtain ⟨hen, hrr, hal⟩ := check_site_eq_some hr
  subst hrr
  refine ⟨?_, ?_, ?_, rfl, rfl, fun d => rfl, rfl, ?_, ?_⟩
  · intro hw
    simp [checkBody, get_domain_expiry, hw]
  · simp [checkBody]
  · intro d hd
    cases hw : env.whois with
    | unavailable => rw [hw] at hd; simp [get_domain_expiry] at hd
    | exn => rw [hw] at hd; simp [get_domain_expiry] at hd
    | ok e =>
      cases e with
      | scalarNone => rw [hw] at hd; simp [get_domain_expiry] at hd
      | scalarDate d2 =>
        rw [hw] at hd
        simp [get_domain_expiry] at hd
        subst hd
        exact ⟨by simp [checkBody, hw, get_domain_expiry],
          by simp [checkBody, hw, get_domain_expiry]⟩
      | dates ds =>
        rw [hw] at hd
        cases hds : ds.filterMap id with
        | nil => simp [get_domain_expiry, hds] at hd
        | cons d2 tl =>
          simp [get_domain_expiry, hds] at hd
          subst hd
          exact ⟨by simp [checkBody, hw, get_domain_expiry, hds],
            by simp [checkBody, hw, get_domain_expiry, hds]⟩
  · intro ds d hd
    obtain ⟨ys, hys⟩ := List.head?_eq_some_iff.mp hd
    simp [get_domain_expiry, hys]
  · intro ds hds
    simp [get_domain_expiry, hds]

/-- C8: a site configured with enabled=false produces no record at all, and
dropping it from a round leaves every other site's record unchanged. -/
theorem disabled_site_excluded (st : Settings) (site : SiteConfig) (env : Env)
    (pre post : List (SiteConfig × Env))
    (hd : site.enabled = some false) :
    check_site st site env = none
    ∧ runChecks st (pre ++ (site, env) :: post)
        = runChecks st pre ++ runChecks st post := by
  have h1 : check_site st site env = none := by
    rw [check_site, hd]
    simp
  refine ⟨h1, ?_⟩
  simp [runChecks, List.filterMap_append, List.filterMap_cons, h1]

/-- Witness for C1 at the fully successful concrete environment. -/
theorem http_time_field_spec_witness :
    (∃ e hl cb code text tex, envOk.http = HTTPOutcome.ok e hl cb code text tex
        ∧ pairOk.1.httpTime = FVal.num (pyRound2 (e * 1000))
        ∧ 0 ≤ pyRound2 (e * 1000))
    ∨ (∃ msg, envOk.http = HTTPOutcome.exn msg
        ∧ pairOk.1.httpTime = FVal.str "Failed") := by
  refine http_time_field_spec stW siteW envOk pairOk.1 pairOk.2 rfl ?_
  intro e hl cb code text tex h
  have h2 : HTTPOutcome.ok (1 / 20) 0 2048 200 "welcome to odisha portal" false
      = HTTPOutcome.ok e hl cb code text tex := h
  injection h2 with h3 h4 h5 h6 h7 h8
  rw [← h3]
  norm_num

/-- Witness for C2 at the fully successful concrete environment. -/
theorem up_slow_iff_spec_witness :
    pairOk.1.status = "Up (Slow)" ↔
      (pyStartsWith (httpBlock (siteW.expected_status.getD 200)
          (siteW.check_keyword.getD (optStrTruthy siteW.keyword)) siteW.keyword
          siteW.name siteW.url envOk.nowLocalStr envOk.http).status "Up" = true
        ∧ ∃ q : ℚ, pairOk.1.httpTime = FVal.num q
            ∧ stW.response_time_threshold < q) :=
  up_slow_iff_spec stW siteW envOk pairOk.1 pairOk.2 rfl

/-- Witness for the amended C3 at the everything-fails environment. -/
theorem ping_na_when_no_ip_witness :
    pairAllFail.1.ping = FVal.str "N/A" :=
  ping_na_when_no_ip stW siteW envAllFail pairAllFail.1 pairAllFail.2 rfl rfl rfl

/-- Witness for C4: the attempted ping with a live reply records the rounded
round-trip time. -/
theorem ping_field_trichotomy_witness :
    pairOk.1.ping = FVal.num (pyRound2 12) := by
  have h := ping_field_trichotomy stW siteW envOk pairOk.1 pairOk.2 rfl
  have h2 := (h.2 rfl).1 true 12 rfl
  simpa using h2

/-- Witness for C5 at the 503-answer environment. -/
theorem http_status_derivation_spec_witness :
    pairBad.1.status = "Down (503)"
    ∧ strContains pairBad.1.notes "Expected status 200, but got 503."
    ∧ pairBad.2 = [(subjectDown "Example",
        bodyWrongStatus "Example" "https://example.com" 503
          "2025-01-01 05:30:00")] := by
  have h := http_status_derivation_spec stW siteW envBad pairBad.1 pairBad.2
      (1 / 20) 0 2048 503 "oops" false rfl rfl
  have h2 := h.2 (by decide)
  refine ⟨?_, ?_, h2.2.2⟩
  · rw [h2.1]
    decide
  · have h3 : ("Expected status " ++ toString (siteW.expected_status.getD 200)
        ++ ", but got " ++ toString (503 : ℤ) ++ ".")
        = "Expected status 200, but got 503." := by decide
    exact h3 ▸ h2.2.1

/-- Witness for C6 at the transport-failure environment. -/
theorem http_error_record_spec_witness :
    pairFail.1.status = "Down (HTTP Error)"
    ∧ pairFail.1.httpTime = FVal.str "Failed"
    ∧ strContains pairFail.1.notes "HTTP request failed."
    ∧ pairFail.2 = [(subjectDown "Example",
        bodyHttpError "Example" "https://example.com" "connection refused"
          "2025-01-01 05:30:00")] :=
  http_error_record_spec stW siteW envFail pairFail.1 pairFail.2
    "connection refused" rfl rfl

/-- Witness for C7: the record carries the concrete expiry date, and the
raising lookup yields "WHOIS Failed". -/
theorem domain_expiry_trichotomy_witness :
    pairOk.1.domainDaysLeft = FVal.num ((200 : ℤ) : ℚ)
    ∧ pairOk.1.domainExpiryDate = "2026-05-01T00:00:00+00:00"
    ∧ get_domain_expiry WhoisOutcome.exn = (none, FVal.str "WHOIS Failed") := by
  have h := domain_expiry_trichotomy stW siteW envOk pairOk.1 pairOk.2 rfl
  have h2 := h.2.2.1 dW rfl
  exact ⟨h2.1, h2.2, h.2.2.2.2.1⟩

/-- Witness for C8 at a concrete three-site round. -/
theorem disabled_site_excluded_witness :
    check_site stW siteOff envOk = none
    ∧ runChecks stW ([(siteW, envOk)] ++ (siteOff, envOk) :: [(siteW, envOk)])
        = runChecks stW [(siteW, envOk)] ++ runChecks stW [(siteW, envOk)] :=
  disabled_site_excluded stW siteOff envOk [(siteW, envOk)] [(siteW, envOk)] rfl

/-- Witness for C9: the keyword and flag are configured, yet the failed
request leaves "Keyword Check" at "Skipped". -/
theorem keyword_skipped_on_http_error_witness :
    siteW.keyword = some "odisha" ∧ siteW.check_keyword = some true
    ∧ pairFail.1.keywordCheck = "Skipped" :=
  ⟨rfl, rfl, keyword_skipped_on_http_error stW siteW envFail pairFail.1
    pairFail.2 "connection refused" rfl rfl⟩

/-- Witness for C10 at the transport-failure environment. -/
theorem redirects_zero_on_http_error_witness :
    pairFail.1.redirects = 0 :=
  (redirects_zero_on_http_error stW siteW envFail pairFail.1 pairFail.2
    "connection refused" rfl rfl).1

end Orsac
